import Mathlib

set_option linter.unusedSectionVars false

/-!
Shallow embedding of `src/lib_gnome/WindMover_c.cpp` (PyGnome wind mover):
the uncertainty store and scheduler (`AllocateUncertainty`,
`ReallocateUncertainty`, `UpdateUncertaintyValues`, `UpdateUncertainty`),
the perturbation sampler retry pattern (`rndv` draws checked by
`TermsLessThanMax`), and the displacement engine (`AddUncertainty`,
`GetMove`, `get_move`).

Conventions of the embedding:
* Machine doubles/floats are modelled over a linear ordered field `α`
  (instantiated at `ℚ` for executable witnesses and at `ℝ` where the code
  uses `sqrt`/`cos`/`sin`/`pow`).  The transcendental functions used by the
  scheduler's sigma recomputation are passed as oracle parameters
  (`powFn`, `sqrtFn`) so that the scheduler stays polymorphic.
* The random stream of `rndv` calls is an oracle `r : ℕ → α × α`; a counter
  `k` (index of the next unconsumed draw) is threaded through every
  function that draws.
* Mac-toolbox handles are modelled as `Option (List _)`; `none` is the nil
  handle.  A freshly `_NewHandle`d or `_SetHandleSize`-grown draw array has
  unspecified contents, modelled as `Option`-valued entries where `none`
  marks a never-written (unspecified) record.
* `_NewHandle` can fail; the two allocations in `AllocateUncertainty` are
  governed by the oracle booleans `ok1` (the `fLESetSizes` handle) and
  `ok2` (the `fWindUncertaintyList` handle).
* `OSErr` is `ℤ` (`noErr = 0`, `memFullErr = -108`, generic failure `-1`).
* `Seconds` (unsigned long) is `ℕ`.
-/

/-- One record of the uncertainty list: a sampled (cos, sin) pair.
Mirrors `LEWindUncertainRec` of the source. -/
structure LEWindUncertainRec (α : Type) where
  randCos : α
  randSin : α
deriving DecidableEq, Repr

/-- The wind-mover fields that the uncertainty subsystem and the
displacement engine read and write.  Mirrors the corresponding members of
`WindMover_c`.  Draw-array entries are `Option`-valued: `none` models a
record whose bytes were never written after (re)allocation. -/
structure WMState (α : Type) where
  fWindUncertaintyList : Option (List (Option (LEWindUncertainRec α)))
  fLESetSizes : Option (List ℕ)
  fTimeUncertaintyWasSet : ℕ
  fUncertainStartTime : ℕ
  fDuration : ℕ
  fSpeedScale : α
  fAngleScale : α
  fMaxSpeed : α
  fMaxAngle : α
  fSigma2 : α
  fSigmaTheta : α
  fUncertaintyDiffusion : α
deriving DecidableEq, Repr

/-- Modelled from the spec: `noErr` of the host toolbox (header not in
`src/`). -/
def noErr : ℤ := 0

/-- Modelled from the spec: `memFullErr` of the host toolbox (header not in
`src/`); the error returned when `_NewHandle` fails — the spec's
AllocationFailure. -/
def memFullErr : ℤ := -108

/-- Modelled from the spec: the `OILSTAT_INWATER` status code (header not
in `src/`); the exact numeral is immaterial, only its distinctness. -/
def OILSTAT_INWATER : ℤ := 2

/-- Modelled from the spec: the `OILSTAT_TO_BE_REMOVED` status code
(header not in `src/`). -/
def OILSTAT_TO_BE_REMOVED : ℤ := 10

/-- Modelled from the spec: `FORECAST_LE` of the `LEType` enum (header not
in `src/`); forecast and uncertainty are the two recognized tags. -/
def FORECAST_LE : ℤ := 1

/-- Modelled from the spec: `UNCERTAINTY_LE` of the `LEType` enum (header
not in `src/`). -/
def UNCERTAINTY_LE : ℤ := 2

variable {α : Type} [LinearOrderedField α]

/-- `TermsLessThanMax` of the source: accepts a draw when
`abs(sigmaTheta * sinTerm) <= angleMax`.  (`speedMax` and `sigma2` are
taken but unused — the speed test is commented out in the source.) -/
def TermsLessThanMax (cosTerm sinTerm : α) (speedMax angleMax : α)
    (sigma2 sigmaTheta : α) : Bool :=
  decide (|sigmaTheta * sinTerm| ≤ angleMax)

/-- The retry pattern shared by `UpdateUncertaintyValues` and the grow
path of `UpdateUncertainty`: the current draw is `r k`; with `fuel`
remaining loop iterations, an accepted or fuel-exhausted draw is returned
together with the index of the next unconsumed draw. -/
def sampleBoundedAux (r : ℕ → α × α) (speedMax angleMax sigma2 sigmaTheta : α) :
    ℕ → ℕ → (α × α) × ℕ
  | k, 0 => (r k, k + 1)
  | k, fuel + 1 =>
    if TermsLessThanMax (r k).1 (r k).2 speedMax angleMax sigma2 sigmaTheta then
      (r k, k + 1)
    else
      sampleBoundedAux r speedMax angleMax sigma2 sigmaTheta (k + 1) fuel

/-- One `rndv` call followed by the 10-iteration acceptance loop of the
source (`for(j=0;j<10;j++)`), starting at draw index `k`. -/
def sampleBounded (r : ℕ → α × α) (speedMax angleMax sigma2 sigmaTheta : α)
    (k : ℕ) : (α × α) × ℕ :=
  sampleBoundedAux r speedMax angleMax sigma2 sigmaTheta k 10

/-- Number of records a (possibly nil) draw-array handle holds:
`_GetHandleSize(h)/sizeof(LEWindUncertainRec)`, the nil handle giving 0. -/
def storeLen (h : Option (List (Option (LEWindUncertainRec α)))) : ℕ :=
  (h.getD []).length

/-- `_SetHandleSize` on a record array: truncates, or grows with
unspecified (never written) entries. -/
def setHandleSize (l : List (Option (LEWindUncertainRec α))) (n : ℕ) :
    List (Option (LEWindUncertainRec α)) :=
  l.take n ++ List.replicate (n - l.length) none

/-- `WindMover_c::DisposeUncertainty`: zero the refresh timestamp and
release both handles. -/
def DisposeUncertainty (st : WMState α) : WMState α :=
  { st with fTimeUncertaintyWasSet := 0,
            fWindUncertaintyList := none,
            fLESetSizes := none }

/-- Sequentially draw `n` fresh records with the bounded sampler,
threading the draw counter.  This is the loop body shared by
`UpdateUncertaintyValues` and the grow path. -/
def fillList (r : ℕ → α × α) (speedMax angleMax sigma2 sigmaTheta : α) :
    ℕ → ℕ → List (Option (LEWindUncertainRec α)) × ℕ
  | 0, k => ([], k)
  | n + 1, k =>
    let d := sampleBounded r speedMax angleMax sigma2 sigmaTheta k
    let rest := fillList r speedMax angleMax sigma2 sigmaTheta n d.2
    (some ⟨d.1.1, d.1.2⟩ :: rest.1, rest.2)

/-- `WindMover_c::UpdateUncertaintyValues`: record the refresh timestamp
and, when a draw array is present, resample every record in place. -/
def UpdateUncertaintyValues (r : ℕ → α × α) (st : WMState α)
    (elapsedTime : ℕ) (k : ℕ) : WMState α × ℕ :=
  let st1 := { st with fTimeUncertaintyWasSet := elapsedTime }
  if st1.fWindUncertaintyList.isNone = true then (st1, k)
  else
    let l := st1.fWindUncertaintyList.getD []
    let f := fillList r st1.fMaxSpeed st1.fMaxAngle st1.fSigma2 st1.fSigmaTheta
      l.length k
    ({ st1 with fWindUncertaintyList := some f.1 }, f.2)

/-- `WindMover_c::ReallocateUncertainty` (shrink): compact the draw array,
dropping records of LEs flagged `OILSTAT_TO_BE_REMOVED`. -/
def ReallocateUncertainty (st : WMState α) (numLEs : ℕ)
    (statusCodes : Option (List ℤ)) : WMState α × ℤ :=
  if numLEs = 0 ∨ statusCodes = none then (st, -1)
  else if st.fWindUncertaintyList.isNone = true ∨ st.fLESetSizes.isNone = true
  then (st, noErr)
  else
    let l := st.fWindUncertaintyList.getD []
    let offs := st.fLESetSizes.getD []
    let codes := statusCodes.getD []
    if l.length ≠ numLEs then (st, -1)
    else if offs.length ≠ 1 then (st, -1)
    else
      let kept := (l.zip codes).filterMap
        (fun p => if p.2 = OILSTAT_TO_BE_REMOVED then none else some p.1)
      if kept.length = 0 then (DisposeUncertainty st, noErr)
      else ({ st with fWindUncertaintyList := some kept }, noErr)

/-- The offset table `AllocateUncertainty` writes: entry `i` is the
running total of the first `i` set sizes. -/
def cumOffsets (sizes : List ℕ) : List ℕ :=
  (List.range sizes.length).map (fun i => (sizes.take i).sum)

/-- `WindMover_c::AllocateUncertainty`: dispose old values, then allocate
the offset table and the draw array (entries unspecified until sampled);
on either allocation failing, dispose everything and report
`memFullErr`. -/
def AllocateUncertainty (st : WMState α) (sizes : List ℕ) (ok1 ok2 : Bool) :
    WMState α × ℤ :=
  let st1 := DisposeUncertainty st
  if sizes.length = 0 then (st1, -1)
  else if ok1 = false then (DisposeUncertainty st1, memFullErr)
  else
    let st2 := { st1 with fLESetSizes := some (cumOffsets sizes) }
    if ok2 = false then (DisposeUncertainty st2, memFullErr)
    else
      ({ st2 with
          fWindUncertaintyList := some (List.replicate sizes.sum none) }, noErr)

/-- Index of the first stored offset that disagrees with the running
total of target sizes — where the source's check loop breaks. -/
def firstOffsetMismatch (offs sizes : List ℕ) : Option ℕ :=
  (List.range offs.length).find? (fun i => (sizes.take i).sum ≠ offs.getD i 0)

/-- Final value of the check loop's `numrec`: the full target total when
every offset matches, else the running total at the first mismatch. -/
def loopNumrec (offs sizes : List ℕ) : ℕ :=
  match firstOffsetMismatch offs sizes with
  | some i => (sizes.take i).sum
  | none => (sizes.take offs.length).sum

/-- The source's `needToReInit` flag: store or offset table absent, clock
moved backward, set count differs, an offset disagrees with the running
target total, or the loop total fell short of the stored total. -/
def needToReInitOf (st : WMState α) (elapsedTime : ℕ) (sizes : List ℕ) : Bool :=
  st.fWindUncertaintyList.isNone || st.fLESetSizes.isNone
  || decide (elapsedTime < st.fTimeUncertaintyWasSet)
  || (st.fLESetSizes.isSome &&
      (let offs := st.fLESetSizes.getD []
       if sizes.length ≠ offs.length then true
       else
         (firstOffsetMismatch offs sizes).isSome
         || (decide (loopNumrec offs sizes ≠ storeLen st.fWindUncertaintyList)
             && decide (loopNumrec offs sizes < storeLen st.fWindUncertaintyList))))

/-- The source's `needToReAllocate` flag (pyGNOME build): set counts
equal and the loop total exceeds the stored total. -/
def needToReAllocateOf (st : WMState α) (sizes : List ℕ) : Bool :=
  st.fLESetSizes.isSome &&
    (let offs := st.fLESetSizes.getD []
     if sizes.length ≠ offs.length then false
     else decide (storeLen st.fWindUncertaintyList < loopNumrec offs sizes))

/-- `WindMover_c::UpdateUncertainty`.  Faithful to the source's order of
effects: the inactive branch disposes; the grow block (resize first, then
the single-set check, then sampling of the appended range with the
**current** sigma fields) runs before the sigma recomputation; the sigma
recomputation runs before the reinit/refresh branches.  Result:
(new state, OSErr, next draw index). -/
def UpdateUncertainty (r : ℕ → α × α) (powFn : α → α → α) (sqrtFn : α → α)
    (ok1 ok2 : Bool) (st : WMState α) (elapsedTime : ℕ) (sizes : List ℕ)
    (k : ℕ) : WMState α × ℤ × ℕ :=
  if elapsedTime < st.fUncertainStartTime then
    (if st.fWindUncertaintyList.isSome then DisposeUncertainty st else st,
     noErr, k)
  else
    let needToReInit := needToReInitOf st elapsedTime sizes
    let grown : WMState α × Option ℤ × ℕ :=
      if needToReAllocateOf st sizes then
        let offs := st.fLESetSizes.getD []
        let numrec := loopNumrec offs sizes
        let uncertListSize := storeLen st.fWindUncertaintyList
        let resizedList := setHandleSize (st.fWindUncertaintyList.getD []) numrec
        let resized := { st with fWindUncertaintyList := some resizedList }
        if sizes.length ≠ 1 ∨ offs.length ≠ 1 then (resized, some (-1), k)
        else
          let tail := fillList r st.fMaxSpeed st.fMaxAngle st.fSigma2
            st.fSigmaTheta (numrec - uncertListSize) k
          let filledList := resizedList.take uncertListSize ++ tail.1
          ({ resized with fWindUncertaintyList := some filledList },
           none, tail.2)
      else (st, none, k)
    match grown.2.1 with
    | some e => (grown.1, e, grown.2.2)
    | none =>
      let st1 := grown.1
      let k1 := grown.2.2
      let dt : α := ((elapsedTime - st1.fUncertainStartTime : ℕ) : α)
      let sig := st1.fSpeedScale * (315 / 1000) * powFn dt (147 / 1000)
      let st2 := { st1 with
        fSigma2 := sig * sig / 2,
        fSigmaTheta := st1.fAngleScale * (273 / 100) * sqrtFn (sqrtFn dt) }
      if needToReInit then
        let alloc := AllocateUncertainty st2 sizes ok1 ok2
        if alloc.2 = noErr then
          let upd := UpdateUncertaintyValues r alloc.1 elapsedTime k1
          (upd.1, noErr, upd.2)
        else (alloc.1, alloc.2, k1)
      else if st2.fTimeUncertaintyWasSet + st2.fDuration ≤ elapsedTime then
        let upd := UpdateUncertaintyValues r st2 elapsedTime k1
        (upd.1, noErr, upd.2)
      else (st2, noErr, k1)

/-- `VelocityRec` of the source: east/north components in m/s. -/
structure VelocityRec where
  u : ℝ
  v : ℝ

/-- `WorldPoint3D` of the source, flattened: longitude, latitude, depth. -/
structure WorldPoint3D where
  pLong : ℝ
  pLat : ℝ
  z : ℝ

/-- The fields of `LERec` that `GetMove` reads. -/
structure LERec where
  pLong : ℝ
  pLat : ℝ
  z : ℝ
  windage : ℝ

/-- `WindMover_c::AddUncertainty`: perturb the cached wind vector for the
LE at `offsets[setIndex] + leIndex`.  `rand1`, `rand2` are the two
`GetRandomFloat(-1,1)` draws of the near-calm branch.  A never-written
record reads as the unspecified pair (0, 0). -/
noncomputable def AddUncertainty (st : WMState ℝ) (rand1 rand2 : ℝ)
    (setIndex leIndex : ℕ) (patVel : VelocityRec) : VelocityRec :=
  if st.fWindUncertaintyList = none ∨ st.fLESetSizes = none then patVel
  else
    let tempV := patVel
    let norm := Real.sqrt (tempV.v * tempV.v + tempV.u * tempV.u)
    if norm < 1 then
      { u := tempV.u + st.fUncertaintyDiffusion * rand1,
        v := tempV.v + st.fUncertaintyDiffusion * rand2 }
    else
      let offs := st.fLESetSizes.getD []
      let l := st.fWindUncertaintyList.getD []
      let unrec := (l.getD (offs.getD setIndex 0 + leIndex) none).getD ⟨0, 0⟩
      let w := norm
      let s := w * w - st.fSigma2
      let sqs := if 0 < s then Real.sqrt s else 0
      let m := if 0 < s then Real.sqrt (Real.sqrt s) else 0
      let s2 := Real.sqrt (w - sqs)
      let x := unrec.randCos * s2 + m
      let w2 := x * x
      let dtheta := unrec.randSin * st.fSigmaTheta * Real.pi / 180
      let costheta := Real.cos dtheta
      let sintheta := Real.sin dtheta
      let w3 := w2 / (if costheta < 1 / 1000 then 1 / 1000 else costheta)
      let t := w3 / norm
      let tu := tempV.u * t
      let tv := tempV.v * t
      { u := tu * costheta - tv * sintheta,
        v := tv * costheta + tu * sintheta }

/-- `WindMover_c::GetMove`: one LE's displacement for one step.
`longToLatRatio` is `LongToLatRatio3` and `metersPerDegreeLat` is
`METERSPERDEGREELAT`; both live in headers outside `src/` and are
modelled from the spec as the meridian-convergence scale factor and the
meters-per-degree constant, passed as parameters. -/
noncomputable def GetMove (longToLatRatio : ℝ → ℝ) (metersPerDegreeLat : ℝ)
    (st : WMState ℝ) (currentTimeValue : VelocityRec) (rand1 rand2 : ℝ)
    (timeStep : ℕ) (setIndex leIndex : ℕ) (theLE : LERec) (leType : ℤ) :
    WorldPoint3D :=
  if 0 < theLE.z then ⟨0, 0, 0⟩
  else
    let timeValue :=
      if leType = UNCERTAINTY_LE then
        AddUncertainty st rand1 rand2 setIndex leIndex currentTimeValue
      else currentTimeValue
    let u := timeValue.u * theLE.windage
    let v := timeValue.v * theLE.windage
    let dLong := ((u / metersPerDegreeLat) * (timeStep : ℝ))
      / longToLatRatio theLE.pLat
    let dLat := (v / metersPerDegreeLat) * (timeStep : ℝ)
    ⟨dLong * 1000000, dLat * 1000000, 0⟩

/-- `WindMover_c::get_move`: the batch driver.  The `delta` out-array is
modelled by the returned list (`deltaProvided` models its pointer being
non-null); `ref`, `windages` model the other checked pointers.  Each LE's
two potential uniform draws come from `uniforms i`. -/
noncomputable def get_move (longToLatRatio : ℝ → ℝ) (metersPerDegreeLat : ℝ)
    (st : WMState ℝ) (currentTimeValue : VelocityRec) (uniforms : ℕ → ℝ × ℝ)
    (n : ℕ) (deltaProvided : Bool) (ref : Option (List WorldPoint3D))
    (windages : Option (List ℝ)) (LE_status : List ℤ) (spillType : ℤ)
    (spill_ID : ℕ) (timeStep : ℕ) : Except ℤ (List WorldPoint3D) :=
  if deltaProvided = false ∨ ref.isNone = true ∨ windages.isNone = true then
    .error 1
  else if spillType < FORECAST_LE ∨ UNCERTAINTY_LE < spillType then .error 2
  else
    let refs := ref.getD []
    let ws := windages.getD []
    .ok ((List.range n).map fun i =>
      if LE_status.getD i 0 ≠ OILSTAT_INWATER then ⟨0, 0, 0⟩
      else
        let refi := refs.getD i ⟨0, 0, 0⟩
        let rec1 : LERec :=
          { pLong := refi.pLong, pLat := refi.pLat * 1000000,
            z := refi.z, windage := ws.getD i 0 }
        let d := GetMove longToLatRatio metersPerDegreeLat st currentTimeValue
          (uniforms i).1 (uniforms i).2 timeStep spill_ID i rec1 spillType
        ⟨d.pLong / 1000000, d.pLat / 1000000, d.z⟩)

/-- Follows claim C6's words (not the source): up to 10 `sample()` calls,
accepting the first draw satisfying the bound; if none of the 10 does,
the last of them is accepted unconditionally. -/
def sampleBoundedClaimC6Aux (r : ℕ → α × α)
    (speedMax angleMax sigma2 sigmaTheta : α) : ℕ → ℕ → (α × α) × ℕ
  | k, 0 => (r k, k + 1)
  | k, 1 => (r k, k + 1)
  | k, fuel + 2 =>
    if TermsLessThanMax (r k).1 (r k).2 speedMax angleMax sigma2 sigmaTheta then
      (r k, k + 1)
    else
      sampleBoundedClaimC6Aux r speedMax angleMax sigma2 sigmaTheta (k + 1)
        (fuel + 1)

/-- Follows claim C6's words (not the source): the bounded sampler with at
most 10 draws in total. -/
def sampleBoundedClaimC6 (r : ℕ → α × α)
    (speedMax angleMax sigma2 sigmaTheta : α) (k : ℕ) : (α × α) × ℕ :=
  sampleBoundedClaimC6Aux r speedMax angleMax sigma2 sigmaTheta k 10

/-- Follows claim C3's words (not the source): identical to
`AddUncertainty` except for the final rescale, which takes the original
wind vector to magnitude `sqrt(w') / normV` (direction preserved) before
the rotation. -/
noncomputable def AddUncertaintyClaimC3 (st : WMState ℝ) (rand1 rand2 : ℝ)
    (setIndex leIndex : ℕ) (patVel : VelocityRec) : VelocityRec :=
  if st.fWindUncertaintyList = none ∨ st.fLESetSizes = none then patVel
  else
    let tempV := patVel
    let norm := Real.sqrt (tempV.v * tempV.v + tempV.u * tempV.u)
    if norm < 1 then
      { u := tempV.u + st.fUncertaintyDiffusion * rand1,
        v := tempV.v + st.fUncertaintyDiffusion * rand2 }
    else
      let offs := st.fLESetSizes.getD []
      let l := st.fWindUncertaintyList.getD []
      let unrec := (l.getD (offs.getD setIndex 0 + leIndex) none).getD ⟨0, 0⟩
      let w := norm
      let s := max (w * w - st.fSigma2) 0
      let sqs := Real.sqrt s
      let m := Real.sqrt sqs
      let s2 := Real.sqrt (w - sqs)
      let x := unrec.randCos * s2 + m
      let w2 := x * x
      let dtheta := unrec.randSin * st.fSigmaTheta * Real.pi / 180
      let costheta := Real.cos dtheta
      let sintheta := Real.sin dtheta
      let w3 := w2 / max costheta (1 / 1000)
      let mag := Real.sqrt w3 / norm
      let t := mag / norm
      let tu := tempV.u * t
      let tv := tempV.v * t
      { u := tu * costheta - tv * sintheta,
        v := tv * costheta + tu * sintheta }

/-- Follows claim C5's words (not the source): the batch driver that
expands the fixed-point latitude to floating degrees (divides by 1e6)
before calling the engine and re-encodes (multiplies by 1e6) the returned
delta after it. -/
noncomputable def get_moveClaimC5 (longToLatRatio : ℝ → ℝ)
    (metersPerDegreeLat : ℝ) (st : WMState ℝ) (currentTimeValue : VelocityRec)
    (uniforms : ℕ → ℝ × ℝ) (n : ℕ) (deltaProvided : Bool)
    (ref : Option (List WorldPoint3D)) (windages : Option (List ℝ))
    (LE_status : List ℤ) (spillType : ℤ) (spill_ID : ℕ) (timeStep : ℕ) :
    Except ℤ (List WorldPoint3D) :=
  if deltaProvided = false ∨ ref.isNone = true ∨ windages.isNone = true then
    .error 1
  else if spillType < FORECAST_LE ∨ UNCERTAINTY_LE < spillType then .error 2
  else
    let refs := ref.getD []
    let ws := windages.getD []
    .ok ((List.range n).map fun i =>
      if LE_status.getD i 0 ≠ OILSTAT_INWATER then ⟨0, 0, 0⟩
      else
        let refi := refs.getD i ⟨0, 0, 0⟩
        let rec1 : LERec :=
          { pLong := refi.pLong, pLat := refi.pLat / 1000000,
            z := refi.z, windage := ws.getD i 0 }
        let d := GetMove longToLatRatio metersPerDegreeLat st currentTimeValue
          (uniforms i).1 (uniforms i).2 timeStep spill_ID i rec1 spillType
        ⟨d.pLong * 1000000, d.pLat * 1000000, d.z⟩)

/-- Follows claim C2's words (not the source): identical to
`UpdateUncertainty` except that `fSigma2`/`fSigmaTheta` are recomputed
for the step's elapsed time before any store mutation, so the grow-path
fill samples against the recomputed values. -/
def UpdateUncertaintyClaimC2 (r : ℕ → α × α) (powFn : α → α → α)
    (sqrtFn : α → α) (ok1 ok2 : Bool) (st : WMState α) (elapsedTime : ℕ)
    (sizes : List ℕ) (k : ℕ) : WMState α × ℤ × ℕ :=
  if elapsedTime < st.fUncertainStartTime then
    (if st.fWindUncertaintyList.isSome then DisposeUncertainty st else st,
     noErr, k)
  else
    let dt : α := ((elapsedTime - st.fUncertainStartTime : ℕ) : α)
    let sig := st.fSpeedScale * (315 / 1000) * powFn dt (147 / 1000)
    let st0 := { st with
      fSigma2 := sig * sig / 2,
      fSigmaTheta := st.fAngleScale * (273 / 100) * sqrtFn (sqrtFn dt) }
    let needToReInit := needToReInitOf st0 elapsedTime sizes
    let grown : WMState α × Option ℤ × ℕ :=
      if needToReAllocateOf st0 sizes then
        let offs := st0.fLESetSizes.getD []
        let numrec := loopNumrec offs sizes
        let uncertListSize := storeLen st0.fWindUncertaintyList
        let resizedList :=
          setHandleSize (st0.fWindUncertaintyList.getD []) numrec
        let resized := { st0 with fWindUncertaintyList := some resizedList }
        if sizes.length ≠ 1 ∨ offs.length ≠ 1 then (resized, some (-1), k)
        else
          let tail := fillList r st0.fMaxSpeed st0.fMaxAngle st0.fSigma2
            st0.fSigmaTheta (numrec - uncertListSize) k
          let filledList := resizedList.take uncertListSize ++ tail.1
          ({ resized with fWindUncertaintyList := some filledList },
           none, tail.2)
      else (st0, none, k)
    match grown.2.1 with
    | some e => (grown.1, e, grown.2.2)
    | none =>
      let st2 := grown.1
      let k1 := grown.2.2
      if needToReInit then
        let alloc := AllocateUncertainty st2 sizes ok1 ok2
        if alloc.2 = noErr then
          let upd := UpdateUncertaintyValues r alloc.1 elapsedTime k1
          (upd.1, noErr, upd.2)
        else (alloc.1, alloc.2, k1)
      else if st2.fTimeUncertaintyWasSet + st2.fDuration ≤ elapsedTime then
        let upd := UpdateUncertaintyValues r st2 elapsedTime k1
        (upd.1, noErr, upd.2)
      else (st2, noErr, k1)

/-- A draw stream that always returns (0, 0). -/
def rZero : ℕ → ℚ × ℚ := fun _ => (0, 0)

/-- A `pow` oracle that is identically zero (its value never matters to
the properties below). -/
def powZero : ℚ → ℚ → ℚ := fun _ _ => 0

/-- Two-set state for the grow-path counterexamples: offsets [0, 1] and
two sampled records, matching set sizes [1, 1]. -/
def exStTwoSets : WMState ℚ :=
  { fWindUncertaintyList := some [some ⟨1, 1⟩, some ⟨2, 2⟩],
    fLESetSizes := some [0, 1],
    fTimeUncertaintyWasSet := 5, fUncertainStartTime := 0, fDuration := 100,
    fSpeedScale := 2, fAngleScale := 1, fMaxSpeed := 30, fMaxAngle := 1,
    fSigma2 := 0, fSigmaTheta := 0, fUncertaintyDiffusion := 0 }

/-- Single-set, single-record state with stale sigma values 0, for the
grow-path sigma-ordering counterexample. -/
def exStOneRec : WMState ℚ :=
  { exStTwoSets with
    fWindUncertaintyList := some [some ⟨0, 0⟩], fLESetSizes := some [0] }

/-- Stream whose first draw is rejected under the recomputed sigmaTheta
but accepted under the stale one. -/
def exStreamC2 : ℕ → ℚ × ℚ := fun i => if i = 0 then (0, 1) else (0, 0)

/-- Single-set state holding five sampled records, for the
stored-total-larger-than-target counterexample. -/
def exStFive : WMState ℚ :=
  { exStTwoSets with
    fWindUncertaintyList :=
      some [some ⟨1, 1⟩, some ⟨2, 2⟩, some ⟨3, 3⟩, some ⟨4, 4⟩, some ⟨5, 5⟩],
    fLESetSizes := some [0] }

/-- Single-set state holding four identical sampled records, for the
reinit-condition counterexample. -/
def exStFour : WMState ℚ :=
  { exStTwoSets with
    fWindUncertaintyList :=
      some [some ⟨9, 9⟩, some ⟨9, 9⟩, some ⟨9, 9⟩, some ⟨9, 9⟩],
    fLESetSizes := some [0] }

/-- Stream for the sampler counterexample: the first ten draws fail the
bound `|1 * 1| <= 0`; the eleventh is (0, 5). -/
def exStreamC6 : ℕ → ℚ × ℚ := fun i => if i ≤ 9 then (0, 1) else (0, 5)

/-- State with no uncertainty arrays allocated. -/
def exStEmpty : WMState ℚ :=
  { exStTwoSets with fWindUncertaintyList := none, fLESetSizes := none }

/-- An all-zero real-valued mover state. -/
noncomputable def exStRZero : WMState ℝ :=
  { fWindUncertaintyList := none, fLESetSizes := none,
    fTimeUncertaintyWasSet := 0, fUncertainStartTime := 0, fDuration := 10800,
    fSpeedScale := 2, fAngleScale := 2 / 5, fMaxSpeed := 30, fMaxAngle := 60,
    fSigma2 := 0, fSigmaTheta := 0, fUncertaintyDiffusion := 0 }

/-- Real-valued state with one uncertainty record (0, 0) at offset 0 and
`fSigma2 = 0`, for the perturbation-formula counterexample. -/
noncomputable def exStRC3 : WMState ℝ :=
  { exStRZero with
    fWindUncertaintyList := some [some ⟨0, 0⟩], fLESetSizes := some [0],
    fSigma2 := 0, fSigmaTheta := 37 }

/-- Exact behaviour of the retry pattern, by induction on the remaining
loop iterations: either some draw among the first `fuel` is the first to
satisfy the bound and is returned, or all `fuel` checked draws fail and
the following (unchecked) draw is returned. -/
theorem sampleBoundedAux_spec (r : ℕ → α × α)
    (speedMax angleMax sigma2 sigmaTheta : α) :
    ∀ (fuel k : ℕ),
      (∃ j < fuel,
        sampleBoundedAux r speedMax angleMax sigma2 sigmaTheta k fuel
          = (r (k + j), k + j + 1)
        ∧ TermsLessThanMax (r (k + j)).1 (r (k + j)).2 speedMax angleMax
            sigma2 sigmaTheta = true
        ∧ ∀ i < j, TermsLessThanMax (r (k + i)).1 (r (k + i)).2 speedMax
            angleMax sigma2 sigmaTheta = false)
      ∨ ((∀ i < fuel, TermsLessThanMax (r (k + i)).1 (r (k + i)).2 speedMax
            angleMax sigma2 sigmaTheta = false)
        ∧ sampleBoundedAux r speedMax angleMax sigma2 sigmaTheta k fuel
            = (r (k + fuel), k + fuel + 1)) := by
  intro fuel
  induction fuel with
  | zero =>
    intro k
    right
    refine ⟨fun i hi => absurd hi (Nat.not_lt_zero i), ?_⟩
    simp [sampleBoundedAux]
  | succ fuel ih =>
    intro k
    by_cases h : TermsLessThanMax (r k).1 (r k).2 speedMax angleMax
        sigma2 sigmaTheta = true
    · left
      refine ⟨0, Nat.succ_pos fuel, ?_, ?_, ?_⟩
      · simp [sampleBoundedAux, h]
      · simpa using h
      · intro i hi; omega
    · have hfalse : TermsLessThanMax (r k).1 (r k).2 speedMax angleMax
          sigma2 sigmaTheta = false := by
        cases hb : TermsLessThanMax (r k).1 (r k).2 speedMax angleMax
            sigma2 sigmaTheta
        · rfl
        · exact absurd hb h
      have hstep : sampleBoundedAux r speedMax angleMax sigma2 sigmaTheta k
          (fuel + 1) = sampleBoundedAux r speedMax angleMax sigma2 sigmaTheta
          (k + 1) fuel := by
        simp [sampleBoundedAux, hfalse]
      rcases ih (k + 1) with ⟨j, hj,heq, hok, hfail⟩ | ⟨hfail, heq⟩
      · left
        refine ⟨j + 1, by omega, ?_, ?_, ?_⟩
        · rw [hstep, heq]; ring_nf
        · have : k + (j + 1) = k + 1 + j := by omega
          rw [this]; exact hok
        · intro i hi
          cases i with
          | zero => simpa using hfalse
          | succ i =>
            have : k + (i + 1) = k + 1 + i := by omega
            rw [this]; exact hfail i (by omega)
      · right
        refine ⟨?_, ?_⟩
        · intro i hi
          cases i with
          | zero => simpa using hfalse
          | succ i =>
            have : k + (i + 1) = k + 1 + i := by omega
            rw [this]; exact hfail i (by omega)
        · rw [hstep, heq]; ring_nf

/-- Claim C6 (amended): the bounded sampler makes up to 11 draws — it
returns the first of the first 10 draws to satisfy the angle bound, the
draws before it having failed; and when all 10 fail, it makes an 11th
draw and returns it without checking the bound. -/
theorem claimC6_amended (r : ℕ → α × α)
    (speedMax angleMax sigma2 sigmaTheta : α) (k : ℕ) :
    (∃ j ≤ 9,
      sampleBounded r speedMax angleMax sigma2 sigmaTheta k
        = (r (k + j), k + j + 1)
      ∧ TermsLessThanMax (r (k + j)).1 (r (k + j)).2 speedMax angleMax
          sigma2 sigmaTheta = true
      ∧ ∀ i < j, TermsLessThanMax (r (k + i)).1 (r (k + i)).2 speedMax
          angleMax sigma2 sigmaTheta = false)
    ∨ ((∀ i < 10, TermsLessThanMax (r (k + i)).1 (r (k + i)).2 speedMax
          angleMax sigma2 sigmaTheta = false)
      ∧ sampleBounded r speedMax angleMax sigma2 sigmaTheta k
          = (r (k + 10), k + 11)) := by
  rcases sampleBoundedAux_spec r speedMax angleMax sigma2 sigmaTheta 10 k with
    ⟨j, hj, heq, hok, hfail⟩ | ⟨hfail, heq⟩
  · exact Or.inl ⟨j, by omega, heq, hok, hfail⟩
  · refine Or.inr ⟨hfail, ?_⟩
    rw [show k + 11 = k + 10 + 1 by omega]
    exact heq

/-- Claim C6 (counterexample): with a stream whose first ten draws fail
the bound, the source's sampler consumes an 11th draw and returns it —
not the last of the ten attempts, and not within ten calls. -/
theorem claimC6_counterexample :
    sampleBounded exStreamC6 30 0 0 1 0 = ((0, 5), 11)
    ∧ sampleBoundedClaimC6 exStreamC6 30 0 0 1 0 = ((0, 1), 10)
    ∧ (((0 : ℚ), (5 : ℚ)), (11 : ℕ)) ≠ (((0 : ℚ), (1 : ℚ)), (10 : ℕ)) := by
  refine ⟨?_, ?_, by norm_num⟩
  · norm_num [sampleBounded, sampleBoundedAux, TermsLessThanMax, exStreamC6]
  · norm_num [sampleBoundedClaimC6, sampleBoundedClaimC6Aux, TermsLessThanMax,
      exStreamC6]

/-- Claim C1 (amended): an allocation failure inside `AllocateUncertainty`
leaves both arrays disposed and reports `memFullErr`; but when the grow
path of `UpdateUncertainty` fails its single-set check, the store has
already been resized to the loop total — appended records unspecified —
when the failure (-1) is returned, so that failure does not roll the
store back to empty. -/
theorem claimC1_amended :
    (∀ (st : WMState α) (sizes : List ℕ) (ok1 ok2 : Bool),
      sizes.length ≠ 0 → (ok1 = false ∨ ok2 = false) →
      AllocateUncertainty st sizes ok1 ok2
        = (DisposeUncertainty st, memFullErr))
    ∧ (∀ (r : ℕ → α × α) (powFn : α → α → α) (sqrtFn : α → α)
        (ok1 ok2 : Bool) (st : WMState α) (elapsedTime : ℕ) (sizes : List ℕ)
        (k : ℕ),
      st.fUncertainStartTime ≤ elapsedTime →
      needToReAllocateOf st sizes = true →
      (sizes.length ≠ 1 ∨ (st.fLESetSizes.getD []).length ≠ 1) →
      UpdateUncertainty r powFn sqrtFn ok1 ok2 st elapsedTime sizes k
        = ({ st with fWindUncertaintyList := some (setHandleSize
              (st.fWindUncertaintyList.getD [])
              (loopNumrec (st.fLESetSizes.getD []) sizes)) }, -1, k)) := by
  constructor
  · intro st sizes ok1 ok2 hlen hok
    rcases hok with h | h
    · subst h
      simp [AllocateUncertainty, DisposeUncertainty, hlen]
    · subst h
      cases ok1 <;> simp [AllocateUncertainty, DisposeUncertainty, hlen]
  · intro r powFn sqrtFn ok1 ok2 st elapsedTime sizes k hstart hgrow hsets
    rw [UpdateUncertainty, if_neg (by omega)]
    simp only [hgrow, if_true]
    rw [if_pos hsets]

/-- Claim C1 (counterexample): with two matching sets and a grown target
total, the grow path resizes the store to three records (the appended one
unspecified) and then returns the failure -1 — the store is not rolled
back to empty. -/
theorem claimC1_counterexample :
    UpdateUncertainty rZero powZero id true true exStTwoSets 10 [1, 2] 0
      = ({ exStTwoSets with
            fWindUncertaintyList := some [some ⟨1, 1⟩, some ⟨2, 2⟩, none] },
         -1, 0)
    ∧ (UpdateUncertainty rZero powZero id true true exStTwoSets 10 [1, 2]
        0).1.fWindUncertaintyList ≠ none :=
  ⟨rfl, by rw [show (UpdateUncertainty rZero powZero id true true exStTwoSets
      10 [1, 2] 0).1.fWindUncertaintyList
      = some [some ⟨1, 1⟩, some ⟨2, 2⟩, none] from rfl]; simp⟩

/-- Witness for claim C1's amended theorem at concrete inputs. -/
theorem claimC1_amended_witness :
    AllocateUncertainty exStTwoSets [1, 2] false true
      = (DisposeUncertainty exStTwoSets, memFullErr)
    ∧ UpdateUncertainty rZero powZero id true true exStTwoSets 10 [1, 3] 0
      = ({ exStTwoSets with fWindUncertaintyList := some (setHandleSize
            (exStTwoSets.fWindUncertaintyList.getD [])
            (loopNumrec (exStTwoSets.fLESetSizes.getD []) [1, 3])) },
         -1, 0) :=
  ⟨claimC1_amended.1 exStTwoSets [1, 2] false true (by simp) (Or.inl rfl),
   claimC1_amended.2 rZero powZero id true true exStTwoSets 10 [1, 3] 0
     (by decide) (by decide) (by decide)⟩

/-- Growing a record array with `_SetHandleSize` keeps the original
records in place below the old length. -/
theorem setHandleSize_take (l : List (Option (LEWindUncertainRec α))) (n : ℕ)
    (h : l.length ≤ n) : (setHandleSize l n).take l.length = l := by
  unfold setHandleSize
  rw [List.take_of_length_le h, List.take_left]

/-- Claim C2 (amended): on a successful grow step, the sigma values are
recomputed for the current elapsed time — but only after the grow-path
mutation: the appended records are sampled against the **previous**
step's `fSigma2`/`fSigmaTheta`, while the state returned carries the
recomputed values. -/
theorem claimC2_amended (r : ℕ → α × α) (powFn : α → α → α) (sqrtFn : α → α)
    (ok1 ok2 : Bool) (st : WMState α) (elapsedTime : ℕ) (sizes : List ℕ)
    (k : ℕ) (offs : List ℕ) (l : List (Option (LEWindUncertainRec α)))
    (hoffs : st.fLESetSizes = some offs)
    (hl : st.fWindUncertaintyList = some l)
    (hsets1 : offs.length = 1) (hsz1 : sizes.length = 1)
    (hmm : firstOffsetMismatch offs sizes = none)
    (hgrow : l.length < sizes.sum)
    (hstart : st.fUncertainStartTime ≤ elapsedTime)
    (hclock : st.fTimeUncertaintyWasSet ≤ elapsedTime)
    (hrefresh : elapsedTime < st.fTimeUncertaintyWasSet + st.fDuration) :
    UpdateUncertainty r powFn sqrtFn ok1 ok2 st elapsedTime sizes k
      = ({ st with
            fWindUncertaintyList := some (l ++
              (fillList r st.fMaxSpeed st.fMaxAngle st.fSigma2 st.fSigmaTheta
                (sizes.sum - l.length) k).1),
            fSigma2 :=
              st.fSpeedScale * (315 / 1000)
                * powFn ((elapsedTime - st.fUncertainStartTime : ℕ) : α)
                    (147 / 1000)
              * (st.fSpeedScale * (315 / 1000)
                * powFn ((elapsedTime - st.fUncertainStartTime : ℕ) : α)
                    (147 / 1000)) / 2,
            fSigmaTheta := st.fAngleScale * (273 / 100)
              * sqrtFn (sqrtFn ((elapsedTime - st.fUncertainStartTime : ℕ) : α)) },
         noErr,
         (fillList r st.fMaxSpeed st.fMaxAngle st.fSigma2 st.fSigmaTheta
           (sizes.sum - l.length) k).2) := by
  have htake : sizes.take offs.length = sizes := by
    rw [hsets1, ← hsz1, List.take_length]
  have hnum : loopNumrec offs sizes = sizes.sum := by
    unfold loopNumrec
    rw [hmm, htake]
  have hreall : needToReAllocateOf st sizes = true := by
    unfold needToReAllocateOf
    rw [hoffs]
    simp only [Option.isSome_some, Option.getD_some, Bool.true_and]
    rw [if_neg (show ¬ sizes.length ≠ offs.length by rw [hsz1, hsets1]; simp)]
    simp only [hnum, storeLen, hl, Option.getD_some]
    simpa using hgrow
  have hreinit : needToReInitOf st elapsedTime sizes = false := by
    unfold needToReInitOf
    rw [hoffs, hl]
    have h3 : decide (elapsedTime < st.fTimeUncertaintyWasSet) = false :=
      decide_eq_false (by omega)
    simp only [Option.isNone_some, Bool.false_or, h3, Option.isSome_some,
      Option.getD_some, Bool.true_and,
      if_neg (show ¬ sizes.length ≠ offs.length by rw [hsz1, hsets1]; simp),
      hmm, Option.isSome_none]
    simp only [hnum, storeLen, Option.getD_some]
    rw [decide_eq_false (show ¬ sizes.sum < l.length by omega), Bool.and_false]
  rw [UpdateUncertainty, if_neg (by omega)]
  simp only [hreall, hreinit, if_true, Bool.false_eq_true, if_false]
  rw [if_neg (by rw [hoffs]; simp [hsz1, hsets1])]
  have hgetDl : st.fWindUncertaintyList.getD [] = l := by
    rw [hl]; rfl
  have hgetDo : st.fLESetSizes.getD [] = offs := by
    rw [hoffs]; rfl
  simp only [hgetDl, hgetDo, hnum]
  have hslen : storeLen st.fWindUncertaintyList = l.length := by
    unfold storeLen; rw [hl]; rfl
  simp only [hslen]
  rw [setHandleSize_take l sizes.sum (Nat.le_of_lt hgrow)]
  simp only [if_neg (by omega : ¬ st.fTimeUncertaintyWasSet + st.fDuration
    ≤ elapsedTime)]

/-- Claim C2 (counterexample): growing a single-set store from one to two
records with stale `fSigmaTheta = 0` and recomputed `fSigmaTheta = 27.3`:
the source accepts the first draw (0, 1) because the stale bound
`|0 * 1| <= 1` holds, whereas recomputing before the mutation (the
claim's reading) rejects it and stores (0, 0) instead. -/
theorem claimC2_counterexample :
    (UpdateUncertainty exStreamC2 powZero id true true exStOneRec 10 [2]
      0).1.fWindUncertaintyList = some [some ⟨0, 0⟩, some ⟨0, 1⟩]
    ∧ (UpdateUncertaintyClaimC2 exStreamC2 powZero id true true exStOneRec 10
      [2] 0).1.fWindUncertaintyList = some [some ⟨0, 0⟩, some ⟨0, 0⟩]
    ∧ some [some (⟨0, 0⟩ : LEWindUncertainRec ℚ), some ⟨0, 1⟩]
        ≠ some [some ⟨0, 0⟩, some ⟨0, 0⟩] := by
  refine ⟨?_, ?_, by simp⟩
  · norm_num [UpdateUncertainty, needToReInitOf, needToReAllocateOf,
      firstOffsetMismatch, loopNumrec, storeLen, setHandleSize, fillList,
      sampleBounded, sampleBoundedAux, TermsLessThanMax, exStOneRec,
      exStreamC2, powZero, exStTwoSets, cumOffsets, List.range_succ]
  · norm_num [UpdateUncertaintyClaimC2, needToReInitOf, needToReAllocateOf,
      firstOffsetMismatch, loopNumrec, storeLen, setHandleSize, fillList,
      sampleBounded, sampleBoundedAux, TermsLessThanMax, exStOneRec,
      exStreamC2, powZero, exStTwoSets, cumOffsets, List.range_succ, abs_le]

/-- Witness for claim C2's amended theorem at concrete inputs. -/
theorem claimC2_amended_witness :
    UpdateUncertainty exStreamC2 powZero id true true exStOneRec 10 [2] 0
      = ({ exStOneRec with
            fWindUncertaintyList := some ([some ⟨0, 0⟩] ++
              (fillList exStreamC2 exStOneRec.fMaxSpeed exStOneRec.fMaxAngle
                exStOneRec.fSigma2 exStOneRec.fSigmaTheta
                (([2] : List ℕ).sum - [some (⟨0, 0⟩ : LEWindUncertainRec ℚ)].length) 0).1),
            fSigma2 :=
              exStOneRec.fSpeedScale * (315 / 1000)
                * powZero ((10 - exStOneRec.fUncertainStartTime : ℕ) : ℚ)
                    (147 / 1000)
              * (exStOneRec.fSpeedScale * (315 / 1000)
                * powZero ((10 - exStOneRec.fUncertainStartTime : ℕ) : ℚ)
                    (147 / 1000)) / 2,
            fSigmaTheta := exStOneRec.fAngleScale * (273 / 100)
              * id (id ((10 - exStOneRec.fUncertainStartTime : ℕ) : ℚ)) },
         noErr,
         (fillList exStreamC2 exStOneRec.fMaxSpeed exStOneRec.fMaxAngle
           exStOneRec.fSigma2 exStOneRec.fSigmaTheta
           (([2] : List ℕ).sum - [some (⟨0, 0⟩ : LEWindUncertainRec ℚ)].length) 0).2) :=
  claimC2_amended exStreamC2 powZero id true true exStOneRec 10 [2] 0 [0]
    [some ⟨0, 0⟩] rfl rfl rfl rfl rfl (by decide) (by decide) (by decide)
    (by decide)

/-- On an active step with the grow flag clear and the reinit flag set,
`UpdateUncertainty` (with both allocations succeeding) allocates fresh to
the target sizes, resamples every record with the recomputed sigmas, and
records the refresh timestamp, reporting success. -/
theorem UpdateUncertainty_reinit (r : ℕ → α × α) (powFn : α → α → α)
    (sqrtFn : α → α) (st : WMState α) (elapsedTime : ℕ) (sizes : List ℕ)
    (k : ℕ)
    (hstart : st.fUncertainStartTime ≤ elapsedTime)
    (hgrow : needToReAllocateOf st sizes = false)
    (hreinit : needToReInitOf st elapsedTime sizes = true)
    (hsz : sizes.length ≠ 0) :
    UpdateUncertainty r powFn sqrtFn true true st elapsedTime sizes k
      = ({ st with
            fWindUncertaintyList := some
              (fillList r st.fMaxSpeed st.fMaxAngle
                (st.fSpeedScale * (315 / 1000)
                  * powFn ((elapsedTime - st.fUncertainStartTime : ℕ) : α)
                      (147 / 1000)
                 * (st.fSpeedScale * (315 / 1000)
                  * powFn ((elapsedTime - st.fUncertainStartTime : ℕ) : α)
                      (147 / 1000)) / 2)
                (st.fAngleScale * (273 / 100)
                  * sqrtFn (sqrtFn ((elapsedTime - st.fUncertainStartTime : ℕ) : α)))
                sizes.sum k).1,
            fLESetSizes := some (cumOffsets sizes),
            fTimeUncertaintyWasSet := elapsedTime,
            fSigma2 :=
              st.fSpeedScale * (315 / 1000)
                * powFn ((elapsedTime - st.fUncertainStartTime : ℕ) : α)
                    (147 / 1000)
              * (st.fSpeedScale * (315 / 1000)
                * powFn ((elapsedTime - st.fUncertainStartTime : ℕ) : α)
                    (147 / 1000)) / 2,
            fSigmaTheta := st.fAngleScale * (273 / 100)
              * sqrtFn (sqrtFn ((elapsedTime - st.fUncertainStartTime : ℕ) : α)) },
         noErr,
         (fillList r st.fMaxSpeed st.fMaxAngle
           (st.fSpeedScale * (315 / 1000)
             * powFn ((elapsedTime - st.fUncertainStartTime : ℕ) : α)
                 (147 / 1000)
            * (st.fSpeedScale * (315 / 1000)
             * powFn ((elapsedTime - st.fUncertainStartTime : ℕ) : α)
                 (147 / 1000)) / 2)
           (st.fAngleScale * (273 / 100)
             * sqrtFn (sqrtFn ((elapsedTime - st.fUncertainStartTime : ℕ) : α)))
           sizes.sum k).2) := by
  rw [UpdateUncertainty, if_neg (by omega)]
  simp only [hgrow, Bool.false_eq_true, if_false, hreinit, if_true]
  simp only [AllocateUncertainty, DisposeUncertainty, hsz, ne_eq,
    not_false_eq_true, if_neg hsz, Bool.true_eq_false, if_false]
  simp only [UpdateUncertaintyValues, Option.isNone_some, Bool.false_eq_true,
    if_false, Option.getD_some, List.length_replicate]
  rw [if_pos trivial]

/-- Claim C4 (amended): the grow flag is set iff the set counts match and
the check loop's running total exceeds the stored total (the fill then
succeeds only in the single-set case — otherwise the store is resized
and InconsistentState returned, claim C1); and a stored total exceeding
the target under otherwise matching conditions sets the reinit flag —
the step then succeeds as a full reinit instead of failing. -/
theorem claimC4_amended :
    (∀ (st : WMState α) (sizes offs : List ℕ),
      st.fLESetSizes = some offs →
      (needToReAllocateOf st sizes = true ↔
        sizes.length = offs.length
        ∧ storeLen st.fWindUncertaintyList < loopNumrec offs sizes))
    ∧ (∀ (st : WMState α) (sizes offs : List ℕ)
        (l : List (Option (LEWindUncertainRec α))) (elapsedTime : ℕ),
      st.fLESetSizes = some offs → st.fWindUncertaintyList = some l →
      sizes.length = offs.length → firstOffsetMismatch offs sizes = none →
      sizes.sum < l.length →
      needToReAllocateOf st sizes = false
      ∧ needToReInitOf st elapsedTime sizes = true)
    ∧ (∀ (r : ℕ → α × α) (powFn : α → α → α) (sqrtFn : α → α)
        (st : WMState α) (elapsedTime : ℕ) (sizes : List ℕ) (k : ℕ),
      st.fUncertainStartTime ≤ elapsedTime →
      needToReAllocateOf st sizes = false →
      needToReInitOf st elapsedTime sizes = true →
      sizes.length ≠ 0 →
      (UpdateUncertainty r powFn sqrtFn true true st elapsedTime sizes
        k).2.1 = noErr) := by
  refine ⟨?_, ?_, ?_⟩
  · intro st sizes offs hoffs
    unfold needToReAllocateOf
    rw [hoffs]
    simp only [Option.isSome_some, Option.getD_some, Bool.true_and]
    by_cases hc : sizes.length = offs.length
    · rw [if_neg (by omega)]
      simp [hc]
    · rw [if_pos (by omega)]
      simp [hc]
  · intro st sizes offs l elapsedTime hoffs hl hc hmm hlt
    have htake : sizes.take offs.length = sizes := by
      rw [← hc, List.take_length]
    have hnum : loopNumrec offs sizes = sizes.sum := by
      unfold loopNumrec
      rw [hmm, htake]
    constructor
    · unfold needToReAllocateOf
      rw [hoffs]
      simp only [Option.isSome_some, Option.getD_some, Bool.true_and]
      rw [if_neg (by omega)]
      simp only [hnum, storeLen, hl, Option.getD_some]
      exact decide_eq_false (by omega)
    · unfold needToReInitOf
      rw [hoffs, hl]
      simp only [Option.isNone_some, Bool.false_or, Option.isSome_some,
        Option.getD_some, Bool.true_and]
      rw [if_neg (by omega)]
      simp only [hnum, hmm, Option.isSome_none, Bool.false_or, storeLen,
        Option.getD_some]
      rw [decide_eq_true (show sizes.sum ≠ l.length by omega),
        decide_eq_true (show sizes.sum < l.length from hlt)]
      simp
  · intro r powFn sqrtFn st elapsedTime sizes k h1 h2 h3 h4
    rw [UpdateUncertainty_reinit r powFn sqrtFn st elapsedTime sizes k h1 h2
      h3 h4]

/-- Claim C4 (counterexample): a single-set store of five records with
target total three — a "total mismatch under non-reinit conditions" with
the stored total larger — does not fail with InconsistentState: the step
succeeds (noErr) and fully reinitializes the store to three fresh
records. -/
theorem claimC4_counterexample :
    (UpdateUncertainty rZero powZero id true true exStFive 10 [3] 0).2.1
      = noErr
    ∧ (UpdateUncertainty rZero powZero id true true exStFive 10 [3]
        0).1.fWindUncertaintyList
      = some [some ⟨0, 0⟩, some ⟨0, 0⟩, some ⟨0, 0⟩]
    ∧ storeLen exStFive.fWindUncertaintyList = 5
    ∧ ([3] : List ℕ).sum = 3 := by
  refine ⟨?_, ?_, rfl, rfl⟩
  · norm_num [UpdateUncertainty, needToReInitOf, needToReAllocateOf,
      firstOffsetMismatch, loopNumrec, storeLen, AllocateUncertainty,
      DisposeUncertainty, UpdateUncertaintyValues, fillList, sampleBounded,
      sampleBoundedAux, TermsLessThanMax, exStFive, exStTwoSets, powZero,
      rZero, cumOffsets, List.range_succ]
  · norm_num [UpdateUncertainty, needToReInitOf, needToReAllocateOf,
      firstOffsetMismatch, loopNumrec, storeLen, AllocateUncertainty,
      DisposeUncertainty, UpdateUncertaintyValues, fillList, sampleBounded,
      sampleBoundedAux, TermsLessThanMax, exStFive, exStTwoSets, powZero,
      rZero, cumOffsets, List.range_succ]

/-- Witness for claim C4's amended theorem at concrete inputs. -/
theorem claimC4_amended_witness :
    (needToReAllocateOf exStOneRec [2] = true ↔
      ([2] : List ℕ).length = ([0] : List ℕ).length
      ∧ storeLen exStOneRec.fWindUncertaintyList < loopNumrec [0] [2])
    ∧ (UpdateUncertainty rZero powZero id true true exStFive 10 [3]
        0).2.1 = noErr :=
  ⟨claimC4_amended.1 exStOneRec [2] [0] rfl,
   claimC4_amended.2.2 rZero powZero id exStFive 10 [3] 0 (by decide)
     (by decide) (by decide) (by decide)⟩

/-- Claim C9 (amended): with both arrays present, the reinit flag is set
iff the clock moved backward, or the set count differs, or a stored
offset disagrees with the running target total, or the check loop's
total falls short of the stored total (the population shrank); an absent
array always sets it; and on an active step with the reinit flag set and
the grow flag clear, the store is allocated fresh, every record
resampled with the recomputed sigmas, the refresh timestamp set to the
elapsed time, and success reported. -/
theorem claimC9_amended :
    (∀ (st : WMState α) (elapsedTime : ℕ) (sizes offs : List ℕ)
        (l : List (Option (LEWindUncertainRec α))),
      st.fLESetSizes = some offs → st.fWindUncertaintyList = some l →
      (needToReInitOf st elapsedTime sizes = true ↔
        elapsedTime < st.fTimeUncertaintyWasSet
        ∨ sizes.length ≠ offs.length
        ∨ (firstOffsetMismatch offs sizes).isSome = true
        ∨ loopNumrec offs sizes < l.length))
    ∧ (∀ (st : WMState α) (elapsedTime : ℕ) (sizes : List ℕ),
      st.fWindUncertaintyList = none ∨ st.fLESetSizes = none →
      needToReInitOf st elapsedTime sizes = true)
    ∧ (∀ (r : ℕ → α × α) (powFn : α → α → α) (sqrtFn : α → α)
        (st : WMState α) (elapsedTime : ℕ) (sizes : List ℕ) (k : ℕ),
      st.fUncertainStartTime ≤ elapsedTime →
      needToReAllocateOf st sizes = false →
      needToReInitOf st elapsedTime sizes = true →
      sizes.length ≠ 0 →
      (UpdateUncertainty r powFn sqrtFn true true st elapsedTime sizes k).1
        = { st with
            fWindUncertaintyList := some
              (fillList r st.fMaxSpeed st.fMaxAngle
                (st.fSpeedScale * (315 / 1000)
                  * powFn ((elapsedTime - st.fUncertainStartTime : ℕ) : α)
                      (147 / 1000)
                 * (st.fSpeedScale * (315 / 1000)
                  * powFn ((elapsedTime - st.fUncertainStartTime : ℕ) : α)
                      (147 / 1000)) / 2)
                (st.fAngleScale * (273 / 100)
                  * sqrtFn (sqrtFn
                      ((elapsedTime - st.fUncertainStartTime : ℕ) : α)))
                sizes.sum k).1,
            fLESetSizes := some (cumOffsets sizes),
            fTimeUncertaintyWasSet := elapsedTime,
            fSigma2 :=
              st.fSpeedScale * (315 / 1000)
                * powFn ((elapsedTime - st.fUncertainStartTime : ℕ) : α)
                    (147 / 1000)
              * (st.fSpeedScale * (315 / 1000)
                * powFn ((elapsedTime - st.fUncertainStartTime : ℕ) : α)
                    (147 / 1000)) / 2,
            fSigmaTheta := st.fAngleScale * (273 / 100)
              * sqrtFn (sqrtFn
                  ((elapsedTime - st.fUncertainStartTime : ℕ) : α)) }
      ∧ (UpdateUncertainty r powFn sqrtFn true true st elapsedTime sizes
          k).2.1 = noErr) := by
  refine ⟨?_, ?_, ?_⟩
  · intro st elapsedTime sizes offs l hoffs hl
    unfold needToReInitOf
    rw [hoffs, hl]
    simp only [Option.isNone_some, Bool.false_or, Option.isSome_some,
      Option.getD_some, Bool.true_and, storeLen]
    by_cases hc : sizes.length = offs.length
    · rw [if_neg (by omega)]
      cases hb : (firstOffsetMismatch offs sizes).isSome
      · simp [hb, hc]
        omega
      · simp [hb, hc]
    · rw [if_pos (by omega)]
      simp [hc]
  · intro st elapsedTime sizes h
    unfold needToReInitOf
    rcases h with h | h <;> rw [h] <;> simp
  · intro r powFn sqrtFn st elapsedTime sizes k h1 h2 h3 h4
    rw [UpdateUncertainty_reinit r powFn sqrtFn st elapsedTime sizes k h1 h2
      h3 h4]
    exact ⟨rfl, rfl⟩

/-- Claim C9 (counterexample): a single-set store of four records with
target total two satisfies none of the claim's four reinit conditions —
store present, clock not moved backward, set count equal, offsets
matching — yet the step performs a full reinit: the store is resampled
to two fresh records, the refresh timestamp is recorded, and success is
reported. -/
theorem claimC9_counterexample :
    (UpdateUncertainty rZero powZero id true true exStFour 10 [2]
      0).1.fWindUncertaintyList = some [some ⟨0, 0⟩, some ⟨0, 0⟩]
    ∧ (UpdateUncertainty rZero powZero id true true exStFour 10 [2]
        0).1.fTimeUncertaintyWasSet = 10
    ∧ (UpdateUncertainty rZero powZero id true true exStFour 10 [2]
        0).2.1 = noErr
    ∧ exStFour.fWindUncertaintyList ≠ none
    ∧ exStFour.fLESetSizes ≠ none
    ∧ ¬ (10 < exStFour.fTimeUncertaintyWasSet)
    ∧ ([2] : List ℕ).length = (exStFour.fLESetSizes.getD []).length
    ∧ firstOffsetMismatch (exStFour.fLESetSizes.getD []) [2] = none := by
  refine ⟨?_, ?_, ?_, by simp [exStFour, exStTwoSets], by
    simp [exStFour, exStTwoSets], by decide, by decide, by decide⟩
  all_goals
    norm_num [UpdateUncertainty, needToReInitOf, needToReAllocateOf,
      firstOffsetMismatch, loopNumrec, storeLen, AllocateUncertainty,
      DisposeUncertainty, UpdateUncertaintyValues, fillList, sampleBounded,
      sampleBoundedAux, TermsLessThanMax, exStFour, exStTwoSets, powZero,
      rZero, cumOffsets, List.range_succ]

/-- Witness for claim C9's amended theorem at concrete inputs. -/
theorem claimC9_amended_witness :
    (needToReInitOf exStFour 10 [2] = true ↔
      10 < exStFour.fTimeUncertaintyWasSet
      ∨ ([2] : List ℕ).length ≠ ([0] : List ℕ).length
      ∨ (firstOffsetMismatch [0] [2]).isSome = true
      ∨ loopNumrec [0] [2]
          < ([some ⟨9, 9⟩, some ⟨9, 9⟩, some ⟨9, 9⟩, some ⟨9, 9⟩]
              : List (Option (LEWindUncertainRec ℚ))).length)
    ∧ needToReInitOf exStEmpty 10 [2] = true
    ∧ (UpdateUncertainty rZero powZero id true true exStFour 10 [2]
        0).2.1 = noErr :=
  ⟨claimC9_amended.1 exStFour 10 [2] [0]
      [some ⟨9, 9⟩, some ⟨9, 9⟩, some ⟨9, 9⟩, some ⟨9, 9⟩] rfl rfl,
   claimC9_amended.2.1 exStEmpty 10 [2] (Or.inl rfl),
   (claimC9_amended.2.2 rZero powZero id exStFour 10 [2] 0 (by decide)
      (by decide) (by decide) (by decide)).2⟩

/-- The compaction of the shrink loop, rephrased: dropping flagged pairs
is filtering on the keep-condition and projecting, so kept records are
exactly those of unflagged LEs, in their original relative order. -/
theorem filterMap_keep_eq_filter_map
    (l : List (Option (LEWindUncertainRec α) × ℤ)) :
    l.filterMap
        (fun p => if p.2 = OILSTAT_TO_BE_REMOVED then none else some p.1)
      = (l.filter (fun p => decide (p.2 ≠ OILSTAT_TO_BE_REMOVED))).map
          Prod.fst := by
  induction l with
  | nil => rfl
  | cons a t ih =>
    by_cases h : a.2 = OILSTAT_TO_BE_REMOVED <;>
      simp [List.filterMap_cons, List.filter_cons, h, ih]

/-- Claim C8 (amended): shrink fails (-1) when the particle count is zero
or the flags pointer is absent; succeeds as a no-op when the store or the
offset table is absent; otherwise requires the stored length to equal the
particle count and exactly one set (else -1); on success it keeps exactly
the records of unflagged LEs in order, disposing the store entirely when
every record is flagged. -/
theorem claimC8_amended :
    (∀ (st : WMState α) (numLEs : ℕ) (statusCodes : Option (List ℤ)),
      numLEs = 0 ∨ statusCodes = none →
      ReallocateUncertainty st numLEs statusCodes = (st, -1))
    ∧ (∀ (st : WMState α) (numLEs : ℕ) (statusCodes : Option (List ℤ)),
      ¬ (numLEs = 0 ∨ statusCodes = none) →
      (st.fWindUncertaintyList.isNone = true ∨ st.fLESetSizes.isNone = true) →
      ReallocateUncertainty st numLEs statusCodes = (st, noErr))
    ∧ (∀ (st : WMState α) (numLEs : ℕ) (codes : List ℤ) (offs : List ℕ)
        (l : List (Option (LEWindUncertainRec α))),
      st.fWindUncertaintyList = some l → st.fLESetSizes = some offs →
      numLEs ≠ 0 →
      ((l.length ≠ numLEs ∨ offs.length ≠ 1) →
        ReallocateUncertainty st numLEs (some codes) = (st, -1))
      ∧ (l.length = numLEs → offs.length = 1 →
        ReallocateUncertainty st numLEs (some codes)
          = (let kept := ((l.zip codes).filter
               (fun p => decide (p.2 ≠ OILSTAT_TO_BE_REMOVED))).map Prod.fst
             if kept.length = 0 then (DisposeUncertainty st, noErr)
             else ({ st with fWindUncertaintyList := some kept }, noErr)))) := by
  refine ⟨?_, ?_, ?_⟩
  · intro st numLEs statusCodes h
    rw [ReallocateUncertainty, if_pos h]
  · intro st numLEs statusCodes h habs
    rw [ReallocateUncertainty, if_neg h, if_pos habs]
  · intro st numLEs codes offs l hl hoffs hn
    have hne : ¬ (numLEs = 0 ∨ (some codes : Option (List ℤ)) = none) := by
      simp [hn]
    have habs : ¬ (st.fWindUncertaintyList.isNone = true
        ∨ st.fLESetSizes.isNone = true) := by
      rw [hl, hoffs]; simp
    constructor
    · intro hbad
      rw [ReallocateUncertainty, if_neg hne, if_neg habs, hl, hoffs]
      simp only [Option.getD_some]
      by_cases h1 : l.length ≠ numLEs
      · rw [if_pos h1]
      · have h2 : offs.length ≠ 1 := by tauto
        rw [if_neg h1, if_pos h2]
    · intro hlen hone
      rw [ReallocateUncertainty, if_neg hne, if_neg habs, hl, hoffs]
      simp only [Option.getD_some]
      rw [if_neg (by simpa using hlen), if_neg (by simpa using hone)]
      rw [filterMap_keep_eq_filter_map]

/-- Claim C8 (counterexample): with the store absent (zero uncertainty
sets — not "exactly one"), shrink succeeds as a no-op instead of failing
with InconsistentState. -/
theorem claimC8_counterexample :
    ReallocateUncertainty exStEmpty 1 (some [OILSTAT_INWATER])
      = (exStEmpty, noErr)
    ∧ exStEmpty.fLESetSizes = none
    ∧ noErr ≠ (-1 : ℤ) := by
  refine ⟨rfl, rfl, by decide⟩

/-- Witness for claim C8's amended theorem at concrete inputs. -/
theorem claimC8_amended_witness :
    ReallocateUncertainty exStEmpty 0 (some [] : Option (List ℤ))
      = (exStEmpty, -1)
    ∧ ReallocateUncertainty exStEmpty 3 (some [2, 2, 2])
      = (exStEmpty, noErr)
    ∧ ReallocateUncertainty exStFour 4 (some [10, 2, 10, 2])
      = (let kept :=
           ((([some ⟨9, 9⟩, some ⟨9, 9⟩, some ⟨9, 9⟩, some ⟨9, 9⟩]
               : List (Option (LEWindUncertainRec ℚ))).zip
             [10, 2, 10, 2]).filter
               (fun p => decide (p.2 ≠ OILSTAT_TO_BE_REMOVED))).map Prod.fst
         if kept.length = 0 then (DisposeUncertainty exStFour, noErr)
         else ({ exStFour with fWindUncertaintyList := some kept }, noErr)) :=
  ⟨claimC8_amended.1 exStEmpty 0 (some []) (Or.inl rfl),
   claimC8_amended.2.1 exStEmpty 3 (some [2, 2, 2]) (by simp)
     (Or.inl rfl),
   (claimC8_amended.2.2 exStFour 4 [10, 2, 10, 2] [0]
       [some ⟨9, 9⟩, some ⟨9, 9⟩, some ⟨9, 9⟩, some ⟨9, 9⟩] rfl rfl
       (by decide)).2 rfl rfl⟩

/-- Claim C10: for every particle below the surface (depth strictly
positive), `GetMove` returns the zero displacement, for every model state,
cached wind, draws, time step, indices, and population tag. -/
theorem claimC10_below_surface (longToLatRatio : ℝ → ℝ)
    (metersPerDegreeLat : ℝ) (st : WMState ℝ) (cur : VelocityRec)
    (rand1 rand2 : ℝ) (timeStep : ℕ) (setIndex leIndex : ℕ) (theLE : LERec)
    (leType : ℤ) (hz : 0 < theLE.z) :
    GetMove longToLatRatio metersPerDegreeLat st cur rand1 rand2 timeStep
      setIndex leIndex theLE leType = ⟨0, 0, 0⟩ := by
  rw [GetMove, if_pos hz]

/-- Witness for claim C10 at concrete inputs. -/
theorem claimC10_below_surface_witness :
    GetMove (fun x => x) 111120 exStRZero ⟨5, 5⟩ 0 0 900 0 0
      ⟨0, 0, 1, 3 / 100⟩ FORECAST_LE = ⟨0, 0, 0⟩ :=
  claimC10_below_surface (fun x => x) 111120 exStRZero ⟨5, 5⟩ 0 0 900 0 0
    ⟨0, 0, 1, 3 / 100⟩ FORECAST_LE (by norm_num)

/-- Claim C7: the batch driver fails with error 1 (InvalidArgument) when
the delta, reference, or windage array pointer is absent; with those
present it fails with error 2 (InvalidPopulationTag) when the spill type
is outside the forecast..uncertainty range; and on success every particle
whose status is not in-water is assigned the zero displacement. -/
theorem claimC7_guards (longToLatRatio : ℝ → ℝ) (metersPerDegreeLat : ℝ)
    (st : WMState ℝ) (cur : VelocityRec) (uniforms : ℕ → ℝ × ℝ) (n : ℕ)
    (deltaProvided : Bool) (ref : Option (List WorldPoint3D))
    (windages : Option (List ℝ)) (LE_status : List ℤ) (spillType : ℤ)
    (spill_ID : ℕ) (timeStep : ℕ) :
    ((deltaProvided = false ∨ ref.isNone = true ∨ windages.isNone = true) →
      get_move longToLatRatio metersPerDegreeLat st cur uniforms n
        deltaProvided ref windages LE_status spillType spill_ID timeStep
        = .error 1)
    ∧ (¬ (deltaProvided = false ∨ ref.isNone = true ∨ windages.isNone = true) →
      (spillType < FORECAST_LE ∨ UNCERTAINTY_LE < spillType) →
      get_move longToLatRatio metersPerDegreeLat st cur uniforms n
        deltaProvided ref windages LE_status spillType spill_ID timeStep
        = .error 2)
    ∧ (∀ (out : List WorldPoint3D),
      get_move longToLatRatio metersPerDegreeLat st cur uniforms n
        deltaProvided ref windages LE_status spillType spill_ID timeStep
        = .ok out →
      ∀ i, i < n → LE_status.getD i 0 ≠ OILSTAT_INWATER →
      out.getD i ⟨1, 1, 1⟩ = ⟨0, 0, 0⟩) := by
  refine ⟨?_, ?_, ?_⟩
  · intro h
    rw [get_move, if_pos h]
  · intro h1 h2
    rw [get_move, if_neg h1, if_pos h2]
  · intro out hok i hi hstat
    by_cases h1 : deltaProvided = false ∨ ref.isNone = true
        ∨ windages.isNone = true
    · rw [get_move, if_pos h1] at hok
      exact absurd hok (by simp)
    · by_cases h2 : spillType < FORECAST_LE ∨ UNCERTAINTY_LE < spillType
      · rw [get_move, if_neg h1, if_pos h2] at hok
        exact absurd hok (by simp)
      · rw [get_move, if_neg h1, if_neg h2] at hok
        rw [← Except.ok.inj hok]
        have hlen : i < n := hi
        rw [List.getD_eq_getElem?_getD, List.getElem?_map,
          List.getElem?_range hlen]
        simp only [Option.map_some', Option.getD_some]
        rw [if_pos hstat]

/-- Witness for claim C7 at concrete inputs. -/
theorem claimC7_guards_witness :
    get_move (fun x => x) 111120 exStRZero ⟨5, 0⟩ (fun _ => (0, 0)) 1 true
      none (some [1]) [OILSTAT_INWATER] FORECAST_LE 0 900 = .error 1
    ∧ get_move (fun x => x) 111120 exStRZero ⟨5, 0⟩ (fun _ => (0, 0)) 1 true
      (some [⟨0, 0, 0⟩]) (some [1]) [OILSTAT_INWATER] 5 0 900 = .error 2
    ∧ ([(⟨0, 0, 0⟩ : WorldPoint3D)]).getD 0 ⟨1, 1, 1⟩ = ⟨0, 0, 0⟩ :=
  ⟨(claimC7_guards (fun x => x) 111120 exStRZero ⟨5, 0⟩ (fun _ => (0, 0)) 1
      true none (some [1]) [OILSTAT_INWATER] FORECAST_LE 0 900).1
      (Or.inr (Or.inl rfl)),
   (claimC7_guards (fun x => x) 111120 exStRZero ⟨5, 0⟩ (fun _ => (0, 0)) 1
      true (some [⟨0, 0, 0⟩]) (some [1]) [OILSTAT_INWATER] 5 0 900).2.1
      (by simp) (Or.inr (by decide)),
   (claimC7_guards (fun x => x) 111120 exStRZero ⟨5, 0⟩ (fun _ => (0, 0)) 1
      true (some [⟨0, 0, 0⟩]) (some [1]) [0] FORECAST_LE 0 900).2.2
      [⟨0, 0, 0⟩] rfl 0 (by decide) (by decide)⟩

/-- The clamp written with a conditional in the source equals the max of
the spec's phrasing. -/
theorem clamp_eq_max (c : ℝ) :
    (if c < 1 / 1000 then (1 / 1000 : ℝ) else c) = max c (1 / 1000) := by
  rcases lt_trichotomy c (1 / 1000) with h | h | h
  · rw [if_pos h, max_eq_right h.le]
  · rw [h]
    simp
  · rw [if_neg (not_lt.mpr h.le), max_eq_left h.le]

/-- Claim C3 (amended): for an uncertainty record ⟨rc, rs⟩ looked up at
`offsets[setIndex] + leIndex` in an allocated store, with wind magnitude
`normV = sqrt(v² + u²) >= 1`: with `w = normV`, `s = max(w² − σ2, 0)`,
`sqs = sqrt s`, `m = sqrt sqs`, `x = rc·sqrt(w − sqs) + m`,
`dθ = rs·σθ·π/180`, `w' = x² / max (cos dθ) 0.001`, the wind vector is
scaled by the factor `t = w' / normV` — yielding magnitude `w'`, not
`sqrt(w')/normV` — and then rotated by `dθ`. -/
theorem claimC3_amended (st : WMState ℝ) (rand1 rand2 : ℝ)
    (setIndex leIndex : ℕ) (u v : ℝ) (offs : List ℕ)
    (l : List (Option (LEWindUncertainRec ℝ))) (rc rs : ℝ)
    (hl : st.fWindUncertaintyList = some l)
    (hoffs : st.fLESetSizes = some offs)
    (hnorm : 1 ≤ Real.sqrt (v * v + u * u))
    (hrec : l.getD (offs.getD setIndex 0 + leIndex) none = some ⟨rc, rs⟩) :
    AddUncertainty st rand1 rand2 setIndex leIndex ⟨u, v⟩
      = (let w := Real.sqrt (v * v + u * u)
         let s := max (w * w - st.fSigma2) 0
         let sqs := Real.sqrt s
         let m := Real.sqrt sqs
         let x := rc * Real.sqrt (w - sqs) + m
         let dtheta := rs * st.fSigmaTheta * Real.pi / 180
         let w2 := x * x / max (Real.cos dtheta) (1 / 1000)
         let t := w2 / w
         { u := u * t * Real.cos dtheta - v * t * Real.sin dtheta,
           v := v * t * Real.cos dtheta + u * t * Real.sin dtheta }) := by
  rw [AddUncertainty]
  rw [if_neg (by rw [hl, hoffs]; simp)]
  rw [if_neg (not_lt.mpr hnorm)]
  rw [hl, hoffs]
  simp only [Option.getD_some, hrec]
  rw [clamp_eq_max]
  by_cases hs : 0 < Real.sqrt (v * v + u * u) * Real.sqrt (v * v + u * u)
      - st.fSigma2
  · rw [if_pos hs, if_pos hs, max_eq_left hs.le]
  · rw [if_neg hs, if_neg hs, max_eq_right (not_lt.mp hs), Real.sqrt_zero,
      Real.sqrt_zero]

/-- Claim C3 (counterexample): wind (2, 0) with sigma2 = 0 and record
(0, 0): the source rescales by `t = w'/normV` and returns (2, 0) (the
perturbation is the identity when sigma2 = 0 and the draw is zero), while
the claim's "rescale to magnitude sqrt(w')/normV" yields (sqrt 2 / 2, 0),
a different vector. -/
theorem claimC3_counterexample :
    AddUncertainty exStRC3 0 0 0 0 ⟨2, 0⟩ = ⟨2, 0⟩
    ∧ AddUncertaintyClaimC3 exStRC3 0 0 0 0 ⟨2, 0⟩ = ⟨Real.sqrt 2 / 2, 0⟩
    ∧ (⟨2, 0⟩ : VelocityRec) ≠ ⟨Real.sqrt 2 / 2, 0⟩ := by
  have h4 : Real.sqrt ((0 : ℝ) * 0 + 2 * 2) = 2 := by
    rw [show ((0 : ℝ) * 0 + 2 * 2) = 2 ^ 2 by norm_num]
    exact Real.sqrt_sq (by norm_num)
  have h44 : Real.sqrt (4 : ℝ) = 2 := by
    rw [show (4 : ℝ) = 2 ^ 2 by norm_num]
    exact Real.sqrt_sq (by norm_num)
  have hss : Real.sqrt 2 * Real.sqrt 2 = 2 :=
    Real.mul_self_sqrt (by norm_num)
  have hlt : Real.sqrt 2 < 2 := by
    nlinarith [Real.sq_sqrt (show (0 : ℝ) ≤ 2 by norm_num),
      Real.sqrt_nonneg 2]
  refine ⟨?_, ?_, ?_⟩
  · rw [AddUncertainty]
    rw [if_neg (by simp [exStRC3, exStRZero])]
    rw [if_neg (by rw [h4]; norm_num)]
    simp only [exStRC3, exStRZero, Option.getD_some, h4]
    norm_num [h44, hss, Real.sqrt_zero, Real.cos_zero, Real.sin_zero]
  · rw [AddUncertaintyClaimC3]
    rw [if_neg (by simp [exStRC3, exStRZero])]
    rw [if_neg (by rw [h4]; norm_num)]
    simp only [exStRC3, exStRZero, Option.getD_some, h4]
    norm_num [h44, hss, Real.sqrt_zero, Real.cos_zero, Real.sin_zero]
    ring
  · intro h
    have h2 : (2 : ℝ) = Real.sqrt 2 / 2 := congrArg VelocityRec.u h
    linarith

/-- Witness for claim C3's amended theorem at concrete inputs. -/
theorem claimC3_amended_witness :
    AddUncertainty exStRC3 0 0 0 0 ⟨2, 0⟩
      = (let w := Real.sqrt ((0 : ℝ) * 0 + 2 * 2)
         let s := max (w * w - exStRC3.fSigma2) 0
         let sqs := Real.sqrt s
         let m := Real.sqrt sqs
         let x := 0 * Real.sqrt (w - sqs) + m
         let dtheta := 0 * exStRC3.fSigmaTheta * Real.pi / 180
         let w2 := x * x / max (Real.cos dtheta) (1 / 1000)
         let t := w2 / w
         { u := 2 * t * Real.cos dtheta - 0 * t * Real.sin dtheta,
           v := 0 * t * Real.cos dtheta + 2 * t * Real.sin dtheta }) :=
  claimC3_amended exStRC3 0 0 0 0 2 0 [0] [some ⟨0, 0⟩] 0 0 rfl rfl
    (by rw [show ((0 : ℝ) * 0 + 2 * 2) = 2 ^ 2 by norm_num,
          Real.sqrt_sq (by norm_num : (0 : ℝ) ≤ 2)]
        norm_num)
    rfl

/-- Claim C5 (amended): for an in-water particle under valid guards, the
batch driver encodes the floating-degree latitude to fixed point
(multiplies by 1e6) before invoking `GetMove` and decodes the returned
delta (divides both components by 1e6) after it; and `GetMove`'s output
delta carries the ×1e6 fixed-point encoding of the degree deltas
computed from the (possibly perturbed) wind, windage, time step, and
meridian scale. -/
theorem claimC5_amended (longToLatRatio : ℝ → ℝ) (metersPerDegreeLat : ℝ)
    (st : WMState ℝ) (cur : VelocityRec) (uniforms : ℕ → ℝ × ℝ) (n : ℕ)
    (refs : List WorldPoint3D) (ws : List ℝ) (LE_status : List ℤ)
    (spillType : ℤ) (spill_ID : ℕ) (timeStep : ℕ) (i : ℕ) (hi : i < n)
    (hvalid : ¬ (spillType < FORECAST_LE ∨ UNCERTAINTY_LE < spillType))
    (hstat : ¬ (LE_status.getD i 0 ≠ OILSTAT_INWATER)) :
    (∃ out, get_move longToLatRatio metersPerDegreeLat st cur uniforms n
        true (some refs) (some ws) LE_status spillType spill_ID timeStep
        = .ok out
      ∧ out.getD i ⟨1, 1, 1⟩
        = (let refi := refs.getD i ⟨0, 0, 0⟩
           let d := GetMove longToLatRatio metersPerDegreeLat st cur
             (uniforms i).1 (uniforms i).2 timeStep spill_ID i
             ⟨refi.pLong, refi.pLat * 1000000, refi.z, ws.getD i 0⟩ spillType
           ⟨d.pLong / 1000000, d.pLat / 1000000, d.z⟩))
    ∧ (∀ (theLE : LERec) (r1 r2 : ℝ), ¬ (0 < theLE.z) →
      GetMove longToLatRatio metersPerDegreeLat st cur r1 r2 timeStep
          spill_ID i theLE spillType
        = (let tv := if spillType = UNCERTAINTY_LE then
             AddUncertainty st r1 r2 spill_ID i cur else cur
           { pLong := ((tv.u * theLE.windage / metersPerDegreeLat)
               * (timeStep : ℝ) / longToLatRatio theLE.pLat) * 1000000,
             pLat := ((tv.v * theLE.windage / metersPerDegreeLat)
               * (timeStep : ℝ)) * 1000000,
             z := 0 })) := by
  constructor
  · rw [get_move, if_neg (by simp), if_neg hvalid]
    refine ⟨_, rfl, ?_⟩
    rw [List.getD_eq_getElem?_getD, List.getElem?_map,
      List.getElem?_range hi]
    simp only [Option.map_some', Option.getD_some]
    rw [if_neg hstat]
  · intro theLE r1 r2 hz
    rw [GetMove, if_neg hz]

/-- Claim C5 (counterexample): one in-water forecast particle at
latitude 2 degrees, wind (1, 0), windage 1, unit scale factors: the
source multiplies the latitude by 1e6 before `GetMove` and divides the
returned delta by 1e6, giving longitude delta 1/2000000; the claim's
direction (divide before, multiply after) gives 5e17 — a different
result, so the claim's conversion direction is backwards. -/
theorem claimC5_counterexample :
    get_move (fun x => x) 1 exStRZero ⟨1, 0⟩ (fun _ => (0, 0)) 1 true
        (some [⟨0, 2, 0⟩]) (some [1]) [OILSTAT_INWATER] FORECAST_LE 0 1
      = .ok [⟨1 / 2000000, 0, 0⟩]
    ∧ get_moveClaimC5 (fun x => x) 1 exStRZero ⟨1, 0⟩ (fun _ => (0, 0)) 1
        true (some [⟨0, 2, 0⟩]) (some [1]) [OILSTAT_INWATER] FORECAST_LE 0 1
      = .ok [⟨500000000000000000, 0, 0⟩]
    ∧ ((1 : ℝ) / 2000000) ≠ (500000000000000000 : ℝ) := by
  refine ⟨?_, ?_, by norm_num⟩
  · rw [get_move, if_neg (by simp), if_neg (by decide)]
    norm_num [GetMove, AddUncertainty, exStRZero, OILSTAT_INWATER,
      FORECAST_LE, UNCERTAINTY_LE, List.range_succ]
  · rw [get_moveClaimC5, if_neg (by simp), if_neg (by decide)]
    norm_num [GetMove, AddUncertainty, exStRZero, OILSTAT_INWATER,
      FORECAST_LE, UNCERTAINTY_LE, List.range_succ]

/-- Witness for claim C5's amended theorem at concrete inputs. -/
theorem claimC5_amended_witness :
    (∃ out, get_move (fun x => x) 1 exStRZero ⟨1, 0⟩ (fun _ => (0, 0)) 1
        true (some [⟨0, 2, 0⟩]) (some [1]) [OILSTAT_INWATER] FORECAST_LE 0 1
        = .ok out
      ∧ out.getD 0 ⟨1, 1, 1⟩
        = (let refi := ([(⟨0, 2, 0⟩ : WorldPoint3D)]).getD 0 ⟨0, 0, 0⟩
           let d := GetMove (fun x => x) 1 exStRZero ⟨1, 0⟩
             ((fun _ => ((0 : ℝ), (0 : ℝ))) 0).1
             ((fun _ => ((0 : ℝ), (0 : ℝ))) 0).2 1 0 0
             ⟨refi.pLong, refi.pLat * 1000000, refi.z,
              ([(1 : ℝ)]).getD 0 0⟩ FORECAST_LE
           ⟨d.pLong / 1000000, d.pLat / 1000000, d.z⟩))
    ∧ (∀ (theLE : LERec) (r1 r2 : ℝ), ¬ (0 < theLE.z) →
      GetMove (fun x => x) 1 exStRZero ⟨1, 0⟩ r1 r2 1 0 0 theLE FORECAST_LE
        = (let tv := if (FORECAST_LE : ℤ) = UNCERTAINTY_LE then
             AddUncertainty exStRZero r1 r2 0 0 ⟨1, 0⟩ else ⟨1, 0⟩
           { pLong := ((tv.u * theLE.windage / 1) * ((1 : ℕ) : ℝ)
               / (fun x => x) theLE.pLat) * 1000000,
             pLat := ((tv.v * theLE.windage / 1) * ((1 : ℕ) : ℝ)) * 1000000,
             z := 0 })) :=
  claimC5_amended (fun x => x) 1 exStRZero ⟨1, 0⟩ (fun _ => (0, 0)) 1
    [⟨0, 2, 0⟩] [1] [OILSTAT_INWATER] FORECAST_LE 0 1 0 (by decide)
    (by decide) (by decide)
